import Mathlib

/-!
Shallow embedding of the MSL (Message Security Layer) JavaScript sources:

* `src/core/src/main/javascript/entityauth/X509AuthenticationData.js`
  (namespace `Core` below),
* `src/src/main/javascript/entityauth/X509AuthenticationData.js`, which holds
  both the 2014 X.509 authentication data (namespace `Main` below) and the
  `MessageOutputStream` implementation (second half of the file).

JavaScript object identity (`===` between objects) is modelled by a `ref`
field: two separately allocated objects carry distinct `ref` values even when
their contents coincide.  Asynchronous sink interactions are modelled by
explicit outcome parameters describing which callback of the destination
stream fired.
-/

/-- Byte sequences (JavaScript `Uint8Array` contents). -/
abbrev Bytes := List Nat

/-- The closed set of entity authentication schemes (spec section 3).  The
X.509 sources only ever use the `X509` tag. -/
inductive EntityAuthenticationScheme
  | X509
  | PSK
  | PSK_PROFILE
  | RSA
  | ECC
  | NONE
  | NONE_SUFFIXED
  | MT_PROTECTED
  | PROVISIONED
  deriving DecidableEq, Repr

/-- An X.509 certificate object as the sources see it: `ref` is the JavaScript
object reference (two separately allocated certificates have different `ref`
even with identical content), `subject` is the value of `getSubjectString()`,
and `hex` the DER content in hex (the `hex` property read by `getAuthData`). -/
structure X509 where
  ref : Nat
  subject : String
  hex : String
  deriving DecidableEq, Repr

/-- An abstract X.509 certificate-chain object (only its reference matters to
the sources: it is stored, re-emitted, and compared with `===`). -/
structure X509Chain where
  ref : Nat
  deriving DecidableEq, Repr

/-- JavaScript strict equality `===` on a nullable certificate: `null === null`
holds, and two certificate objects are `===` exactly when they are the same
allocation. -/
def certRefEq : Option X509 → Option X509 → Bool
  | none, none => true
  | some a, some b => a.ref == b.ref
  | _, _ => false

/-- JavaScript strict equality `===` on a nullable certificate chain. -/
def chainRefEq : Option X509Chain → Option X509Chain → Bool
  | none, none => true
  | some a, some b => a.ref == b.ref
  | _, _ => false

/-- JavaScript truthiness of a nullable string (absent and empty strings are
falsy). -/
def truthyStr : Option String → Bool
  | some s => s != ""
  | none => false

/-- Modelled from the spec: the `EntityAuthenticationData` base class
(EntityAuthenticationData.js is not under src/) tags every instance with an
immutable scheme, and its `equals` — invoked as `equals.base.call(this, that)`
by both X.509 variants — compares the scheme tags (spec section 3: instances
are comparable only within the same variant/scheme). -/
def baseEquals (a b : EntityAuthenticationScheme) : Bool := a == b

/-- The wire authentication-data object for the X.509 scheme: nullable
`x509certificate` (Base64 string), `x509chain`, `identity` keys. -/
structure X509Wire where
  x509certificate : Option String
  x509chain : Option X509Chain
  identity : Option String
  deriving DecidableEq, Repr

/-- Result of an authentication-data `$parse` function: success, a thrown
`MslEncodingException (MslError.JSON_PARSE_ERROR)`, or a thrown
`MslCryptoException (MslError.X509CERT_PARSE_ERROR)`. -/
inductive ParseResult (α : Type)
  | ok (d : α)
  | encodingError
  | cryptoError
  deriving DecidableEq, Repr

namespace Core

/-- Embeds `X509AuthenticationData` of
src/core/src/main/javascript/entityauth/X509AuthenticationData.js: scheme tag,
identity, nullable certificate and chain, plus the object reference `ref`
standing for the allocation identity used by `this === that`. -/
structure X509AuthenticationData where
  ref : Nat
  scheme : EntityAuthenticationScheme
  identity : Option String
  x509cert : Option X509
  x509chain : Option X509Chain
  deriving DecidableEq, Repr

/-- The constructor `init(identity, x509cert, x509chain)`: when a certificate
is supplied its subject string overrides any caller-supplied identity. -/
def X509AuthenticationData.init (ref : Nat) (identity : Option String)
    (x509cert : Option X509) (x509chain : Option X509Chain) :
    X509AuthenticationData :=
  { ref
    scheme := EntityAuthenticationScheme.X509
    identity :=
      match x509cert with
      | some cert => some cert.subject
      | none => identity
    x509cert
    x509chain }

/-- `getAuthData()`: emits the `x509certificate` key (Base64 of the hex
content, via the abstract encoder `b64`) when a certificate is present,
otherwise the `x509chain` key when a chain is present, and always the
`identity` key. -/
def X509AuthenticationData.getAuthData (b64 : String → String)
    (d : X509AuthenticationData) : X509Wire :=
  match d.x509cert with
  | some cert =>
    { x509certificate := some (b64 cert.hex), x509chain := none,
      identity := d.identity }
  | none =>
    match d.x509chain with
    | some chain =>
      { x509certificate := none, x509chain := some chain,
        identity := d.identity }
    | none =>
      { x509certificate := none, x509chain := none, identity := d.identity }

/-- `equals(that)` of the core variant: `this === that`, or base (scheme)
equality together with `===` on identity, certificate and chain. -/
def X509AuthenticationData.equals (a b : X509AuthenticationData) : Bool :=
  a.ref == b.ref ||
    (baseEquals a.scheme b.scheme && a.identity == b.identity &&
      certRefEq a.x509cert b.x509cert && chainRefEq a.x509chain b.x509chain)

/-- `X509AuthenticationData$parse` of the core file.  `decodePEM` stands for
the external `X509.readCertPEM` (jsrsasign, not part of this repository):
`none` means the certificate material could not be decoded.  `ref` is the
reference of the freshly allocated result object.  Note the JavaScript
truthiness test `if (certB64)` (empty strings fall through to the chain
branch) and that the chain branch never checks the `identity` key. -/
def X509AuthenticationData.parse (decodePEM : String → Option X509) (ref : Nat)
    (jo : X509Wire) : ParseResult X509AuthenticationData :=
  match jo.x509certificate with
  | some certB64 =>
    if certB64 != "" then
      match decodePEM certB64 with
      | some x509 => ParseResult.ok (init ref none (some x509) none)
      | none => ParseResult.cryptoError
    else
      match jo.x509chain with
      | some chain => ParseResult.ok (init ref jo.identity none (some chain))
      | none => ParseResult.encodingError
  | none =>
    match jo.x509chain with
    | some chain => ParseResult.ok (init ref jo.identity none (some chain))
    | none => ParseResult.encodingError

end Core

namespace Main

/-- Embeds `X509AuthenticationData` of
src/src/main/javascript/entityauth/X509AuthenticationData.js (the 2014
variant): scheme tag, identity derived from the certificate subject, the
certificate itself, and the allocation reference. -/
structure X509AuthenticationData where
  ref : Nat
  scheme : EntityAuthenticationScheme
  identity : String
  x509cert : X509
  deriving DecidableEq, Repr

/-- The constructor `init(x509cert)`: the identity is the certificate
subject. -/
def X509AuthenticationData.init (ref : Nat) (x509cert : X509) :
    X509AuthenticationData :=
  { ref
    scheme := EntityAuthenticationScheme.X509
    identity := x509cert.subject
    x509cert }

/-- `getAuthData()` of the 2014 variant: only the `x509certificate` key. -/
def X509AuthenticationData.getAuthData (b64 : String → String)
    (d : X509AuthenticationData) : X509Wire :=
  { x509certificate := some (b64 d.x509cert.hex), x509chain := none,
    identity := none }

/-- `equals(that)` of the 2014 variant: `this === that`, or base (scheme)
equality together with identity equality — no certificate comparison. -/
def X509AuthenticationData.equals (a b : X509AuthenticationData) : Bool :=
  a.ref == b.ref || (baseEquals a.scheme b.scheme && a.identity == b.identity)

/-- `X509AuthenticationData$parse` of the 2014 file: requires the
`x509certificate` key to be a string (`typeof certB64 !== 'string'` throws an
encoding error), then decodes it. -/
def X509AuthenticationData.parse (decodePEM : String → Option X509) (ref : Nat)
    (jo : X509Wire) : ParseResult X509AuthenticationData :=
  match jo.x509certificate with
  | some certB64 =>
    match decodePEM certB64 with
    | some x509 => ParseResult.ok (init ref x509)
    | none => ParseResult.cryptoError
  | none => ParseResult.encodingError

end Main

/-! ## MessageOutputStream

Embeds the `MessageOutputStream` of the second half of
src/src/main/javascript/entityauth/X509AuthenticationData.js.  The
callback-driven asynchronous I/O is modelled by explicit outcome parameters:
each operation takes, besides its ordinary arguments, a description of which
destination-stream callbacks fired (success / timeout / error / a concurrent
`abort()` observed between callbacks), and returns the new stream state
together with the outcome delivered to the caller's callback. -/

/-- Message capabilities: the set of supported compression algorithm names. -/
structure MessageCapabilities where
  compressionAlgorithms : List String
  deriving DecidableEq, Repr

/-- Modelled from the spec: `MessageCapabilities$intersection`
(MessageCapabilities.js is not under src/) — the negotiated intersection of the
local and remote compression algorithm sets, null when either side supplies no
capabilities (spec sections 4.4 and 6). -/
def MessageCapabilities.intersection :
    Option MessageCapabilities → Option MessageCapabilities →
    Option MessageCapabilities
  | some a, some b =>
    some ⟨a.compressionAlgorithms.filter
      (fun x => b.compressionAlgorithms.contains x)⟩
  | _, _ => none

/-- Modelled from the spec:
`MslConstants$CompressionAlgorithm$getPreferredAlgorithm` (MslConstants.js is
not under src/) — the most preferred algorithm of a supported set, null when
the set is empty (spec section 4.4: "The most preferred compression algorithm
supported by the local entity and message header will be used"). -/
def getPreferredAlgorithm (algos : List String) : Option String := algos.head?

/-- A message header: message id, handshake flag, remote message
capabilities. -/
structure MessageHeader where
  messageId : Nat
  handshake : Bool
  messageCapabilities : Option MessageCapabilities
  deriving DecidableEq, Repr

/-- The stream's header: a `MessageHeader` or an `ErrorHeader` (mutually
exclusive). -/
inductive Header
  | message (mh : MessageHeader)
  | error
  deriving DecidableEq, Repr

/-- The `header.messageCapabilities` property access of the constructor: an
error header carries no message capabilities. -/
def Header.messageCapabilities : Header → Option MessageCapabilities
  | Header.message mh => mh.messageCapabilities
  | Header.error => none

/-- `getMessageHeader()`: the header if it is a `MessageHeader`, null for
error messages. -/
def Header.getMessageHeader : Header → Option MessageHeader
  | Header.message mh => some mh
  | Header.error => none

/-- The JavaScript error values thrown by this code. -/
inductive JsError
  | mslIo (msg : String)
  | mslInternal (msg : String)
  | rangeError (msg : String)
  | sinkError (code : Nat)
  | typeError
  deriving DecidableEq, Repr

/-- Which errors are `instanceof MslException` (the wrap test in the flush
error callbacks).  `rangeError` is a plain `RangeError`, `sinkError` stands
for an arbitrary non-MSL error raised by the destination, `typeError` for a
raw JavaScript crash. -/
def JsError.isMslException : JsError → Bool
  | JsError.mslIo _ => true
  | JsError.mslInternal _ => true
  | _ => false

/-- The outcome delivered to an operation's `{result, timeout, error}`
callback. -/
inductive JsOutcome (α : Type)
  | result (a : α)
  | timeout
  | error (e : JsError)
  deriving DecidableEq, Repr

/-- Whether an outcome is the internal/illegal-state failure signal
(`MslInternalException`; spec section 7 taxonomy `IllegalState`). -/
def JsOutcome.isIllegalState {α : Type} : JsOutcome α → Bool
  | JsOutcome.error (JsError.mslInternal _) => true
  | _ => false

/-- The value `write` hands to its result callback: the literal `false`
delivered after an abort, or the number of bytes accepted. -/
inductive WriteResult
  | abortedFalse
  | written (n : Nat)
  deriving DecidableEq, Repr

/-- A payload chunk (spec section 3): sequence number, owning message id,
end-of-message flag, compression algorithm, application data. -/
structure PayloadChunk where
  sequenceNumber : Nat
  messageId : Nat
  endOfMessage : Bool
  compressionAlgo : Option String
  data : Bytes
  deriving DecidableEq, Repr

/-- Modelled from the spec: `PayloadChunk$create` (PayloadChunk.js is not
under src/) — builds the sequence-numbered, end-of-message-flagged,
optionally-compressed chunk from the buffered bytes (spec sections 3 and 4.3).
The CryptoContext protection it also performs is an external collaborator
whose output carries no information used by the claims; creation failures are
injected through `FlushIo.chunkError`. -/
def PayloadChunk.create (seq mid : Nat) (eom : Bool) (algo : Option String)
    (data : Bytes) : PayloadChunk :=
  { sequenceNumber := seq, messageId := mid, endOfMessage := eom,
    compressionAlgo := algo, data }

/-- How a poll of the single-slot ready queue resolves: released by `ready()`,
cancelled by `abort()`'s `cancelAll()` (the poller receives `undefined`), or
timed out. -/
inductive PollIo
  | released
  | cancelled
  | pollTimeout
  deriving DecidableEq, Repr

/-- Which callback path the payload emission of `flush()` takes: chunk
creation error, then the destination `write`, then the destination `flush`,
with a concurrent `abort()` possibly observed before either result
callback. -/
inductive FlushIo
  | ok
  | chunkError (e : JsError)
  | abortDuringWrite
  | writeShort
  | writeTimeout
  | writeError (e : JsError)
  | abortDuringFlush
  | flushFalse
  | flushTimeout
  | flushError (e : JsError)
  deriving DecidableEq, Repr

/-- How the destination stream's `close()` resolves when `close()` was told to
close the destination. -/
inductive DestCloseIo
  | ok
  | closeTimeout
  | closeError (e : JsError)
  deriving DecidableEq, Repr

/-- Which callback path the header transmission of the constructor takes. -/
inductive HeaderIo
  | ok
  | writeShort
  | writeTimeout
  | writeError (e : JsError)
  | abortBeforeFlushResult
  | flushFalse
  | flushTimeout
  | flushError (e : JsError)
  deriving DecidableEq, Repr

/-- The mutable state of a `MessageOutputStream`.  `emitted` is a ghost trace
field recording, in order, every payload chunk whose emission completed (the
point in `flush()` where the destination write and flush both succeeded and
`_payloadSequenceNumber` is incremented); the code itself stores no such list
— it only caches chunks in `payloads` while `caching` holds. -/
structure MessageOutputStream where
  header : Header
  capabilities : Option MessageCapabilities
  compressionAlgo : Option String
  payloadSequenceNumber : Nat
  currentPayload : Option (List Bytes)
  closed : Bool
  closeDest : Bool
  caching : Bool
  payloads : List PayloadChunk
  ready : Bool
  aborted : Bool
  timedout : Bool
  errored : Option JsError
  emitted : List PayloadChunk
  deriving DecidableEq, Repr

namespace MessageOutputStream

/-- The state the constructor establishes before the header write completes:
negotiated capabilities, preferred compression algorithm, sequence number 1,
empty buffer, caching on, not ready. -/
def createPending (ctxCaps : Option MessageCapabilities) (header : Header) :
    MessageOutputStream :=
  let capabilities :=
    MessageCapabilities.intersection ctxCaps header.messageCapabilities
  { header
    capabilities
    compressionAlgo :=
      match capabilities with
      | some caps => getPreferredAlgorithm caps.compressionAlgorithms
      | none => none
    payloadSequenceNumber := 1
    currentPayload := some []
    closed := false
    closeDest := false
    caching := true
    payloads := []
    ready := false
    aborted := false
    timedout := false
    errored := none
    emitted := [] }

/-- The effect of the header-transmission callbacks: every path calls
`ready()`; a short or timed-out write (or a failed or timed-out destination
flush) records `timedout`, an error records `errored`, and a concurrent abort
observed in a callback records nothing further. -/
def headerIoComplete (s : MessageOutputStream) (hio : HeaderIo) :
    MessageOutputStream :=
  if s.aborted then { s with ready := true }
  else
    match hio with
    | HeaderIo.ok => { s with ready := true }
    | HeaderIo.writeShort => { s with timedout := true, ready := true }
    | HeaderIo.writeTimeout => { s with timedout := true, ready := true }
    | HeaderIo.writeError e => { s with errored := some e, ready := true }
    | HeaderIo.abortBeforeFlushResult => { s with aborted := true, ready := true }
    | HeaderIo.flushFalse => { s with timedout := true, ready := true }
    | HeaderIo.flushTimeout => { s with timedout := true, ready := true }
    | HeaderIo.flushError e => { s with errored := some e, ready := true }

/-- A fully constructed stream: the pending state with the header
transmission resolved. -/
def create (ctxCaps : Option MessageCapabilities) (header : Header)
    (hio : HeaderIo) : MessageOutputStream :=
  (createPending ctxCaps header).headerIoComplete hio

/-- `getMessageHeader()`. -/
def getMessageHeader (s : MessageOutputStream) : Option MessageHeader :=
  s.header.getMessageHeader

/-- `getPayloads()`: the cached payload list. -/
def getPayloads (s : MessageOutputStream) : List PayloadChunk := s.payloads

/-- `stopCaching()`: turns caching off and empties the cached list
(`this._payloads.length = 0`). -/
def stopCaching (s : MessageOutputStream) : MessageOutputStream :=
  { s with caching := false, payloads := [] }

/-- `abort()`: records the aborted flag (it also aborts the destination and
cancels pending ready-queue polls; the latter is modelled by
`PollIo.cancelled`). -/
def abortOp (s : MessageOutputStream) : MessageOutputStream :=
  { s with aborted := true }

/-- `closeDestination(close)`. -/
def setCloseDestination (s : MessageOutputStream) (b : Bool) :
    MessageOutputStream :=
  { s with closeDest := b }

/-- The error wrapping of the flush error callbacks: an `MslException` is
wrapped in an `MslIoException` naming the chunk's sequence number; other
errors pass through. -/
def wrapChunkError (seq : Nat) (e : JsError) : JsError :=
  if e.isMslException then
    JsError.mslIo
      ("Error encoding payload chunk [sequence number " ++ toString seq ++ "].")
  else e

/-- The caching push performed in the chunk-creation result callback
(`if (this._caching) this._payloads.push(chunk);`). -/
def pushCache (s : MessageOutputStream) (c : PayloadChunk) :
    MessageOutputStream :=
  if s.caching then { s with payloads := s.payloads ++ [c] } else s

/-- The payload-emission tail of `flush()`: create the chunk, cache it, write
it to the destination and flush the destination; only when both succeed is the
sequence number incremented, the buffer reset (discarded when closed) and the
chunk appended to the ghost `emitted` trace. -/
def emitChunk (s : MessageOutputStream) (mh : MessageHeader) (data : Bytes)
    (io : FlushIo) : MessageOutputStream × JsOutcome Bool :=
  let chunk := PayloadChunk.create s.payloadSequenceNumber mh.messageId
    s.closed s.compressionAlgo data
  let s1 := pushCache s chunk
  match io with
  | FlushIo.chunkError e =>
    (s, JsOutcome.error (wrapChunkError s.payloadSequenceNumber e))
  | FlushIo.ok =>
    ({ s1 with
        payloadSequenceNumber := s1.payloadSequenceNumber + 1
        currentPayload := if s1.closed then none else some []
        emitted := s1.emitted ++ [chunk] },
      JsOutcome.result true)
  | FlushIo.abortDuringWrite => ({ s1 with aborted := true }, JsOutcome.result false)
  | FlushIo.writeShort => (s1, JsOutcome.timeout)
  | FlushIo.writeTimeout => (s1, JsOutcome.timeout)
  | FlushIo.writeError e =>
    (s1, JsOutcome.error (wrapChunkError s1.payloadSequenceNumber e))
  | FlushIo.abortDuringFlush => ({ s1 with aborted := true }, JsOutcome.result false)
  | FlushIo.flushFalse => (s1, JsOutcome.timeout)
  | FlushIo.flushTimeout => (s1, JsOutcome.timeout)
  | FlushIo.flushError e =>
    (s1, JsOutcome.error (wrapChunkError s1.payloadSequenceNumber e))

/-- The `perform()` body of `flush()`: aborted / timed-out / errored are
replayed first (in that priority), a null buffer means the stream is fully
closed, an open stream with no buffered segments has nothing to send, error
and handshake messages are a no-op, and otherwise the buffered segments are
concatenated and emitted as one chunk. -/
def flushPerform (s : MessageOutputStream) (io : FlushIo) :
    MessageOutputStream × JsOutcome Bool :=
  if s.aborted then (s, JsOutcome.result false)
  else if s.timedout then (s, JsOutcome.timeout)
  else
    match s.errored with
    | some e => (s, JsOutcome.error e)
    | none =>
      match s.currentPayload with
      | none => (s, JsOutcome.result true)
      | some segments =>
        if !s.closed && segments.length == 0 then (s, JsOutcome.result true)
        else
          match s.header.getMessageHeader with
          | none => (s, JsOutcome.result true)
          | some mh =>
            if mh.handshake then (s, JsOutcome.result true)
            else emitChunk s mh segments.flatten io

/-- `flush()`: when the stream is not yet ready it polls the ready queue (the
poll resolves released / cancelled-by-abort / timed out), then runs
`perform()`. -/
def flush (s : MessageOutputStream) (p : PollIo) (io : FlushIo) :
    MessageOutputStream × JsOutcome Bool :=
  if s.ready then s.flushPerform io
  else
    match p with
    | PollIo.released => s.flushPerform io
    | PollIo.cancelled => (s, JsOutcome.result false)
    | PollIo.pollTimeout => (s, JsOutcome.timeout)

/-- `write(data, off, len)`: aborted / timed-out / errored replay first, a
closed stream raises `MslIoException`, out-of-range arguments raise
`RangeError`, error and handshake messages raise `MslInternalException`, and
otherwise the requested slice is appended to the buffer as one segment and its
length returned. -/
def write (s : MessageOutputStream) (data : Bytes) (off len : Int) :
    MessageOutputStream × JsOutcome WriteResult :=
  if s.aborted then (s, JsOutcome.result WriteResult.abortedFalse)
  else if s.timedout then (s, JsOutcome.timeout)
  else
    match s.errored with
    | some e => (s, JsOutcome.error e)
    | none =>
      if s.closed then
        (s, JsOutcome.error (JsError.mslIo "Message output stream already closed."))
      else if off < 0 then
        (s, JsOutcome.error (JsError.rangeError "Offset cannot be negative."))
      else if len < 0 then
        (s, JsOutcome.error (JsError.rangeError "Length cannot be negative."))
      else if (data.length : Int) < off + len then
        (s, JsOutcome.error (JsError.rangeError
          "Offset plus length cannot be greater than the array length."))
      else
        match s.header.getMessageHeader with
        | none =>
          (s, JsOutcome.error (JsError.mslInternal
            "Cannot write payload data for an error message."))
        | some mh =>
          if mh.handshake then
            (s, JsOutcome.error (JsError.mslInternal
              "Cannot write payload data for a handshake message."))
          else
            match s.currentPayload with
            | some segments =>
              let bytes := (data.drop off.toNat).take len.toNat
              ({ s with currentPayload := some (segments ++ [bytes]) },
                JsOutcome.result (WriteResult.written bytes.length))
            | none => (s, JsOutcome.error JsError.typeError)

/-- `close()`: aborted / timed-out / errored replay first, closing twice is a
no-op returning true, and otherwise the closed flag is set and a final flush
emits the end-of-message chunk; on flush success the buffer becomes null, and
the destination is closed only when `closeDestination(true)` was requested. -/
def close (s : MessageOutputStream) (p : PollIo) (fio : FlushIo)
    (dio : DestCloseIo) : MessageOutputStream × JsOutcome Bool :=
  if s.aborted then (s, JsOutcome.result false)
  else if s.timedout then (s, JsOutcome.timeout)
  else
    match s.errored with
    | some e => (s, JsOutcome.error e)
    | none =>
      if s.closed then (s, JsOutcome.result true)
      else
        let s1 := { s with closed := true }
        match s1.flush p fio with
        | (s2, JsOutcome.result success) =>
          let s3 := if success then { s2 with currentPayload := none } else s2
          if s3.closeDest then
            match dio with
            | DestCloseIo.ok => (s3, JsOutcome.result true)
            | DestCloseIo.closeTimeout => (s3, JsOutcome.timeout)
            | DestCloseIo.closeError e => (s3, JsOutcome.error e)
          else (s3, JsOutcome.result success)
        | (s2, JsOutcome.timeout) => (s2, JsOutcome.timeout)
        | (s2, JsOutcome.error e) => (s2, JsOutcome.error e)

/-- `setCompressionAlgorithm(algo)`: error messages raise
`MslInternalException`; an unchanged algorithm returns true with no flush; a
changed algorithm must be in the negotiated capability intersection (otherwise
false is returned with no error and no state change), and a supported change
flushes the buffered data under the old algorithm before switching. -/
def setCompressionAlgorithm (s : MessageOutputStream) (algo : Option String)
    (p : PollIo) (io : FlushIo) : MessageOutputStream × JsOutcome Bool :=
  match s.header.getMessageHeader with
  | none =>
    (s, JsOutcome.error (JsError.mslInternal
      "Cannot write payload data for an error message."))
  | some _ =>
    if s.compressionAlgo == algo then (s, JsOutcome.result true)
    else
      let doFlush : MessageOutputStream × JsOutcome Bool :=
        match s.flush p io with
        | (s1, JsOutcome.result success) =>
          if success then
            ({ s1 with compressionAlgo := algo }, JsOutcome.result true)
          else (s1, JsOutcome.error (JsError.mslIo "flush() aborted"))
        | (s1, JsOutcome.timeout) => (s1, JsOutcome.timeout)
        | (s1, JsOutcome.error e) => (s1, JsOutcome.error e)
      match algo with
      | some a =>
        match s.capabilities with
        | none => (s, JsOutcome.result false)
        | some caps =>
          if caps.compressionAlgorithms.contains a then doFlush
          else (s, JsOutcome.result false)
      | none => doFlush

end MessageOutputStream

/-- One caller-side operation on a message output stream, carrying the
description of how its destination-stream interactions resolved. -/
inductive Op
  | write (data : Bytes) (off len : Int)
  | flush (p : PollIo) (io : FlushIo)
  | close (p : PollIo) (fio : FlushIo) (dio : DestCloseIo)
  | setCompressionAlgorithm (algo : Option String) (p : PollIo) (io : FlushIo)
  | stopCaching
  | abort
  | closeDestination (b : Bool)
  deriving DecidableEq, Repr

/-- The state transition of one operation (its outcome discarded). -/
def MessageOutputStream.step (s : MessageOutputStream) : Op → MessageOutputStream
  | Op.write d o l => (s.write d o l).1
  | Op.flush p io => (s.flush p io).1
  | Op.close p fio dio => (s.close p fio dio).1
  | Op.setCompressionAlgorithm a p io => (s.setCompressionAlgorithm a p io).1
  | Op.stopCaching => s.stopCaching
  | Op.abort => s.abortOp
  | Op.closeDestination b => s.setCloseDestination b

/-- Running a sequence of operations. -/
def MessageOutputStream.run (s : MessageOutputStream) : List Op → MessageOutputStream
  | [] => s
  | op :: ops => (s.step op).run ops

/-- Operations whose destination interactions all succeed and that do not
abort the stream (normal operation). -/
def Op.ok : Op → Bool
  | Op.write _ _ _ => true
  | Op.flush _ io => io == FlushIo.ok
  | Op.close _ fio dio => fio == FlushIo.ok && dio == DestCloseIo.ok
  | Op.setCompressionAlgorithm _ _ io => io == FlushIo.ok
  | Op.stopCaching => true
  | Op.abort => false
  | Op.closeDestination _ => true

/-- The number of end-of-message chunks in a list. -/
def eomCount (l : List PayloadChunk) : Nat :=
  (l.filter (fun c => c.endOfMessage)).length

/-! ## Claims about the X.509 entity authentication data -/

/-- C1: the claim says `equals` is true iff scheme and identity agree, never
depending on object-reference equality of the certificate material.  The core
variant's own documentation agrees ("X.509 authentication data is considered
equal based on the device identity"), but its `equals` additionally compares
the certificate and chain with `===`: two instances built from different
certificate objects with the same subject compare unequal.  The 2014 variant
behaves as claimed.  This theorem evaluates both at such a pair. -/
theorem c1_core_equals_requires_same_certificate_object :
    (Core.X509AuthenticationData.init 1 none (some ⟨1, "cn", "AA"⟩) none).scheme =
      (Core.X509AuthenticationData.init 2 none (some ⟨2, "cn", "BB"⟩) none).scheme ∧
    (Core.X509AuthenticationData.init 1 none (some ⟨1, "cn", "AA"⟩) none).identity =
      (Core.X509AuthenticationData.init 2 none (some ⟨2, "cn", "BB"⟩) none).identity ∧
    Core.X509AuthenticationData.equals
      (Core.X509AuthenticationData.init 1 none (some ⟨1, "cn", "AA"⟩) none)
      (Core.X509AuthenticationData.init 2 none (some ⟨2, "cn", "BB"⟩) none) = false ∧
    Main.X509AuthenticationData.equals
      (Main.X509AuthenticationData.init 1 ⟨1, "cn", "AA"⟩)
      (Main.X509AuthenticationData.init 2 ⟨2, "cn", "BB"⟩) = true := by
  decide

/-- C5: constructing X.509 authentication data with a certificate present
always takes the certificate subject as the identity, ignoring any
caller-supplied identity; the caller-supplied identity is used exactly when no
certificate is present. -/
theorem c5_certificate_subject_is_identity (ref : Nat) (idn : Option String)
    (cert : X509) (chain : Option X509Chain) :
    (Core.X509AuthenticationData.init ref idn (some cert) chain).identity =
      some cert.subject ∧
    (Core.X509AuthenticationData.init ref idn none chain).identity = idn ∧
    (Main.X509AuthenticationData.init ref cert).identity = cert.subject :=
  ⟨rfl, rfl, rfl⟩

/-- A perfectly faithful stand-in for `X509.readCertPEM` on the inputs of the
round-trip example: decoding the (identity-encoded) Base64 of hex "AA" yields
a freshly allocated certificate with the same subject and content. -/
def roundTripDecoder : String → Option X509 :=
  fun s => if s = "AA" then some ⟨2, "cn", "AA"⟩ else none

/-- C6: the round-trip claim `parse(getAuthData())` gives an instance
`equals()` to the original.  Re-serialization is byte-identical and the 2014
variant round-trips as claimed, but the core variant's `equals` compares the
certificate objects with `===`, and `parse` always allocates a fresh
certificate object — so for every certificate-bearing core instance the
round-tripped instance compares unequal even under a perfectly faithful
decoder. -/
theorem c6_core_roundtrip_equals_fails :
    Core.X509AuthenticationData.parse roundTripDecoder 2
        ((Core.X509AuthenticationData.init 1 none (some ⟨1, "cn", "AA"⟩) none).getAuthData id) =
      ParseResult.ok (Core.X509AuthenticationData.init 2 none (some ⟨2, "cn", "AA"⟩) none) ∧
    (Core.X509AuthenticationData.init 2 none (some ⟨2, "cn", "AA"⟩) none).getAuthData id =
      (Core.X509AuthenticationData.init 1 none (some ⟨1, "cn", "AA"⟩) none).getAuthData id ∧
    Core.X509AuthenticationData.equals
      (Core.X509AuthenticationData.init 1 none (some ⟨1, "cn", "AA"⟩) none)
      (Core.X509AuthenticationData.init 2 none (some ⟨2, "cn", "AA"⟩) none) = false ∧
    Main.X509AuthenticationData.parse roundTripDecoder 2
        ((Main.X509AuthenticationData.init 1 ⟨1, "cn", "AA"⟩).getAuthData id) =
      ParseResult.ok (Main.X509AuthenticationData.init 2 ⟨2, "cn", "AA"⟩) ∧
    Main.X509AuthenticationData.equals
      (Main.X509AuthenticationData.init 1 ⟨1, "cn", "AA"⟩)
      (Main.X509AuthenticationData.init 2 ⟨2, "cn", "AA"⟩) = true := by
  decide

/-- C9 (counterexample): the claim's required-field table makes `identity`
mandatory alongside `x509chain`, but the core parser accepts a wire object
carrying only a chain and no identity. -/
theorem c9_chain_without_identity_parses :
    Core.X509AuthenticationData.parse (fun _ => none) 0
        { x509certificate := none, x509chain := some ⟨0⟩, identity := none } =
      ParseResult.ok (Core.X509AuthenticationData.init 0 none none (some ⟨0⟩)) := by
  decide

/-- C9 (amended): the core parser fails with an encoding error exactly when
neither a (truthy) certificate nor a chain is present — `identity` is never
required — and with the certificate-parse crypto error exactly when a
non-empty certificate string is present but cannot be decoded; the 2014
parser requires the `x509certificate` key alone. -/
theorem c9_parse_field_requirements (decodePEM : String → Option X509)
    (ref : Nat) (jo : X509Wire) :
    (Core.X509AuthenticationData.parse decodePEM ref jo = ParseResult.encodingError ↔
      truthyStr jo.x509certificate = false ∧ jo.x509chain = none) ∧
    (Core.X509AuthenticationData.parse decodePEM ref jo = ParseResult.cryptoError ↔
      ∃ c, jo.x509certificate = some c ∧ c ≠ "" ∧ decodePEM c = none) ∧
    (Main.X509AuthenticationData.parse decodePEM ref jo = ParseResult.encodingError ↔
      jo.x509certificate = none) ∧
    (Main.X509AuthenticationData.parse decodePEM ref jo = ParseResult.cryptoError ↔
      ∃ c, jo.x509certificate = some c ∧ decodePEM c = none) := by
  obtain ⟨cert, chain, idn⟩ := jo
  refine ⟨?_, ?_, ?_, ?_⟩ <;>
    cases cert with
    | none =>
      cases chain <;>
        simp [Core.X509AuthenticationData.parse, Main.X509AuthenticationData.parse,
          truthyStr]
    | some c =>
      by_cases hc : c = ""
      · subst hc
        cases chain <;> rcases hd : decodePEM "" with _ | x <;>
          simp [Core.X509AuthenticationData.parse, Main.X509AuthenticationData.parse,
            truthyStr, hd]
      · cases chain <;> rcases hd : decodePEM c with _ | x <;>
          simp [Core.X509AuthenticationData.parse, Main.X509AuthenticationData.parse,
            truthyStr, hc, hd]

/-! ## Claims about MessageOutputStream: write, abort, compression -/

/-- A stream with a data-bearing message header that has been closed
normally. -/
def closedStreamExample : MessageOutputStream :=
  ((MessageOutputStream.create (some ⟨["GZIP"]⟩)
      (Header.message ⟨1, false, some ⟨["GZIP"]⟩⟩) HeaderIo.ok).close
    PollIo.released FlushIo.ok DestCloseIo.ok).1

/-- A stream constructed with an error header. -/
def errorStreamExample : MessageOutputStream :=
  MessageOutputStream.create none Header.error HeaderIo.ok

/-- A stream constructed with a handshake-flagged message header. -/
def handshakeStreamExample : MessageOutputStream :=
  MessageOutputStream.create none (Header.message ⟨2, true, none⟩) HeaderIo.ok

/-- C2 (counterexample): writing to a closed stream fails with
`MslIoException`, an I/O-category error — not the internal/illegal-state
signal (`MslInternalException`) the claim asserts. -/
theorem c2_closed_write_is_io_error_not_illegal_state :
    (closedStreamExample.write [] 0 0).2 =
      JsOutcome.error (JsError.mslIo "Message output stream already closed.") ∧
    ((closedStreamExample.write [] 0 0).2).isIllegalState = false := by
  decide

/-- C2 (amended): on a stream with none of the aborted / timed-out / errored
flags replayed first, a write after close fails with `MslIoException`
("Message output stream already closed."), and a write with in-range
arguments on an error-header or handshake-header stream fails with
`MslInternalException`; in no case does it silently succeed. -/
theorem c2_write_failure_modes (s : MessageOutputStream) (d : Bytes)
    (off len : Int) (hab : s.aborted = false) (hto : s.timedout = false)
    (herr : s.errored = none) :
    (s.closed = true →
      (s.write d off len).2 =
        JsOutcome.error (JsError.mslIo "Message output stream already closed.")) ∧
    (s.closed = false → 0 ≤ off → 0 ≤ len → off + len ≤ (d.length : Int) →
      (s.header = Header.error →
        (s.write d off len).2 =
          JsOutcome.error (JsError.mslInternal
            "Cannot write payload data for an error message.")) ∧
      (∀ mh, s.header = Header.message mh → mh.handshake = true →
        (s.write d off len).2 =
          JsOutcome.error (JsError.mslInternal
            "Cannot write payload data for a handshake message."))) := by
  constructor
  · intro hc
    simp [MessageOutputStream.write, hab, hto, herr, hc]
  · intro hc hoff hlen hrange
    have hnr : ¬((d.length : Int) < off + len) := not_lt.mpr hrange
    constructor
    · intro hh
      simp [MessageOutputStream.write, hab, hto, herr, hc, not_lt.mpr hoff,
        not_lt.mpr hlen, hnr, hh, Header.getMessageHeader]
    · intro mh hh hhs
      simp [MessageOutputStream.write, hab, hto, herr, hc, not_lt.mpr hoff,
        not_lt.mpr hlen, hnr, hh, hhs, Header.getMessageHeader]

/-- C2 (witness): the amended failure modes evaluated at the three example
streams. -/
theorem c2_write_failure_modes_witness :
    (closedStreamExample.write [] 0 0).2 =
      JsOutcome.error (JsError.mslIo "Message output stream already closed.") ∧
    (errorStreamExample.write [] 0 0).2 =
      JsOutcome.error (JsError.mslInternal
        "Cannot write payload data for an error message.") ∧
    (handshakeStreamExample.write [] 0 0).2 =
      JsOutcome.error (JsError.mslInternal
        "Cannot write payload data for a handshake message.") :=
  ⟨(c2_write_failure_modes closedStreamExample [] 0 0 (by decide) (by decide)
      (by decide)).1 (by decide),
   ((c2_write_failure_modes errorStreamExample [] 0 0 (by decide) (by decide)
      (by decide)).2 (by decide) (by decide) (by decide) (by decide)).1 (by decide),
   ((c2_write_failure_modes handshakeStreamExample [] 0 0 (by decide) (by decide)
      (by decide)).2 (by decide) (by decide) (by decide) (by decide)).2
     ⟨2, true, none⟩ (by decide) (by decide)⟩

/-- A stream whose construction completed normally and that was then
aborted. -/
def abortedStreamExample : MessageOutputStream :=
  (MessageOutputStream.create none (Header.message ⟨3, false, none⟩)
    HeaderIo.ok).abortOp

/-- C7: once `abort()` has set the aborted flag, every subsequent `write`,
`flush` and `close` resolves with the benign aborted result (`false`), never
as a timeout or a stale recorded error — the aborted flag is checked before
the timed-out and errored flags — and a flush left pending on the ready queue
is released by `abort()`'s `cancelAll()` with `undefined`, which also resolves
as `false`. -/
theorem c7_abort_short_circuits (s : MessageOutputStream)
    (hab : s.aborted = true) (d : Bytes) (off len : Int) (p p2 : PollIo)
    (io io2 fio : FlushIo) (dio : DestCloseIo) :
    (s.write d off len).2 = JsOutcome.result WriteResult.abortedFalse ∧
    (s.ready = true → (s.flush p io).2 = JsOutcome.result false) ∧
    (s.close p2 fio dio).2 = JsOutcome.result false ∧
    (s.ready = false → (s.flush PollIo.cancelled io2).2 = JsOutcome.result false) := by
  refine ⟨?_, ?_, ?_, ?_⟩
  · simp [MessageOutputStream.write, hab]
  · intro hr
    simp [MessageOutputStream.flush, hr, MessageOutputStream.flushPerform, hab]
  · simp [MessageOutputStream.close, hab]
  · intro hr
    simp [MessageOutputStream.flush, hr]

/-- C7 (witness): the abort short-circuit evaluated at a concrete aborted
stream (which also carries `timedout = false`, so the result is visibly the
aborted `false`, not a timeout). -/
theorem c7_abort_short_circuits_witness :
    (abortedStreamExample.write [1] 0 1).2 =
      JsOutcome.result WriteResult.abortedFalse ∧
    (abortedStreamExample.flush PollIo.released FlushIo.ok).2 =
      JsOutcome.result false ∧
    (abortedStreamExample.close PollIo.released FlushIo.ok DestCloseIo.ok).2 =
      JsOutcome.result false :=
  ⟨(c7_abort_short_circuits abortedStreamExample (by decide) [1] 0 1
      PollIo.released PollIo.released FlushIo.ok FlushIo.ok FlushIo.ok
      DestCloseIo.ok).1,
   (c7_abort_short_circuits abortedStreamExample (by decide) [1] 0 1
      PollIo.released PollIo.released FlushIo.ok FlushIo.ok FlushIo.ok
      DestCloseIo.ok).2.1 (by decide),
   (c7_abort_short_circuits abortedStreamExample (by decide) [1] 0 1
      PollIo.released PollIo.released FlushIo.ok FlushIo.ok FlushIo.ok
      DestCloseIo.ok).2.2.1⟩

/-- C8: `setCompressionAlgorithm` on an error-header stream fails with the
internal/illegal-state signal; an unchanged algorithm returns true with no
flush and no state change; a changed but unsupported algorithm (no negotiated
capabilities, or not in the negotiated intersection) returns false with no
error and no state change; and a changed supported algorithm first flushes the
buffered data as a chunk carrying the old algorithm, then switches and
returns true. -/
theorem c8_set_compression_algorithm (s : MessageOutputStream)
    (algo : Option String) (p : PollIo) (io : FlushIo) (hr : s.ready = true)
    (hab : s.aborted = false) (hto : s.timedout = false)
    (herr : s.errored = none) :
    (s.header = Header.error →
      (s.setCompressionAlgorithm algo p io).2 =
        JsOutcome.error (JsError.mslInternal
          "Cannot write payload data for an error message.")) ∧
    (∀ mh, s.header = Header.message mh → s.compressionAlgo = algo →
      s.setCompressionAlgorithm algo p io = (s, JsOutcome.result true)) ∧
    (∀ mh a, s.header = Header.message mh → algo = some a →
      s.compressionAlgo ≠ algo → s.capabilities = none →
      s.setCompressionAlgorithm algo p io = (s, JsOutcome.result false)) ∧
    (∀ mh a caps, s.header = Header.message mh → algo = some a →
      s.compressionAlgo ≠ algo → s.capabilities = some caps →
      caps.compressionAlgorithms.contains a = false →
      s.setCompressionAlgorithm algo p io = (s, JsOutcome.result false)) ∧
    (∀ mh a caps segments, s.header = Header.message mh → mh.handshake = false →
      algo = some a → s.compressionAlgo ≠ algo → s.capabilities = some caps →
      caps.compressionAlgorithms.contains a = true →
      s.currentPayload = some segments → segments ≠ [] → s.closed = false →
      (s.setCompressionAlgorithm algo p FlushIo.ok).2 = JsOutcome.result true ∧
      (s.setCompressionAlgorithm algo p FlushIo.ok).1.compressionAlgo = algo ∧
      (s.setCompressionAlgorithm algo p FlushIo.ok).1.emitted =
        s.emitted ++ [PayloadChunk.create s.payloadSequenceNumber mh.messageId
          false s.compressionAlgo segments.flatten]) := by
  refine ⟨?_, ?_, ?_, ?_, ?_⟩
  · intro hh
    simp [MessageOutputStream.setCompressionAlgorithm, hh, Header.getMessageHeader]
  · intro mh hh heq
    simp [MessageOutputStream.setCompressionAlgorithm, hh, Header.getMessageHeader, heq]
  · intro mh a hh ha hne hcaps
    rw [ha] at hne
    simp [MessageOutputStream.setCompressionAlgorithm, hh, Header.getMessageHeader,
      hne, hcaps, ha]
  · intro mh a caps hh ha hne hcaps hcontains
    rw [ha] at hne
    have hmem : a ∉ caps.compressionAlgorithms := by simpa using hcontains
    simp [MessageOutputStream.setCompressionAlgorithm, hh, Header.getMessageHeader,
      hne, hcaps, hmem, ha]
  · intro mh a caps segments hh hhs ha hne hcaps hcontains hcur hseg hclosed
    rw [ha] at hne
    have hmem : a ∈ caps.compressionAlgorithms := by simpa using hcontains
    have hlen : (segments.length == 0) = false := by
      simpa using List.length_eq_zero.not.mpr hseg
    by_cases hcache : s.caching <;>
      simp [MessageOutputStream.setCompressionAlgorithm, hh, Header.getMessageHeader,
        hne, hcaps, hmem, ha, MessageOutputStream.flush, hr,
        MessageOutputStream.flushPerform, hab, hto, herr, hcur, hclosed, hlen,
        hhs, MessageOutputStream.emitChunk, MessageOutputStream.pushCache,
        PayloadChunk.create, hcache]

/-- A stream negotiated with capabilities GZIP and LZW (preferred algorithm
GZIP). -/
def capsStreamExample : MessageOutputStream :=
  MessageOutputStream.create (some ⟨["GZIP", "LZW"]⟩)
    (Header.message ⟨5, false, some ⟨["GZIP", "LZW"]⟩⟩) HeaderIo.ok

/-- The capability stream with three bytes buffered. -/
def bufferedStreamExample : MessageOutputStream :=
  (capsStreamExample.write [1, 2, 3] 0 3).1

/-- C8 (witness): the four compression-algorithm outcomes evaluated at
concrete streams: error header, unchanged algorithm, unsupported algorithm,
and a supported change that flushes the buffered bytes under the old
algorithm. -/
theorem c8_set_compression_algorithm_witness :
    (errorStreamExample.setCompressionAlgorithm none PollIo.released FlushIo.ok).2 =
      JsOutcome.error (JsError.mslInternal
        "Cannot write payload data for an error message.") ∧
    capsStreamExample.setCompressionAlgorithm (some "GZIP") PollIo.released
        FlushIo.ok = (capsStreamExample, JsOutcome.result true) ∧
    bufferedStreamExample.setCompressionAlgorithm (some "XX") PollIo.released
        FlushIo.ok = (bufferedStreamExample, JsOutcome.result false) ∧
    (bufferedStreamExample.setCompressionAlgorithm (some "LZW") PollIo.released
        FlushIo.ok).2 = JsOutcome.result true ∧
    (bufferedStreamExample.setCompressionAlgorithm (some "LZW") PollIo.released
        FlushIo.ok).1.compressionAlgo = some "LZW" ∧
    (bufferedStreamExample.setCompressionAlgorithm (some "LZW") PollIo.released
        FlushIo.ok).1.emitted =
      [PayloadChunk.create 1 5 false (some "GZIP") [1, 2, 3]] :=
  ⟨(c8_set_compression_algorithm errorStreamExample none PollIo.released
      FlushIo.ok (by decide) (by decide) (by decide) (by decide)).1 (by decide),
   (c8_set_compression_algorithm capsStreamExample (some "GZIP")
      PollIo.released FlushIo.ok (by decide) (by decide) (by decide)
      (by decide)).2.1 ⟨5, false, some ⟨["GZIP", "LZW"]⟩⟩ (by decide) (by decide),
   (c8_set_compression_algorithm bufferedStreamExample (some "XX")
      PollIo.released FlushIo.ok (by decide) (by decide) (by decide)
      (by decide)).2.2.2.1 ⟨5, false, some ⟨["GZIP", "LZW"]⟩⟩ "XX"
      ⟨["GZIP", "LZW"]⟩ (by decide) rfl (by decide) (by decide) (by decide),
   ((c8_set_compression_algorithm bufferedStreamExample (some "LZW")
      PollIo.released FlushIo.ok (by decide) (by decide) (by decide)
      (by decide)).2.2.2.2 ⟨5, false, some ⟨["GZIP", "LZW"]⟩⟩ "LZW"
      ⟨["GZIP", "LZW"]⟩ [[1, 2, 3]] (by decide) (by decide) rfl (by decide)
      (by decide) (by decide) (by decide) (by decide) (by decide)).1,
   ((c8_set_compression_algorithm bufferedStreamExample (some "LZW")
      PollIo.released FlushIo.ok (by decide) (by decide) (by decide)
      (by decide)).2.2.2.2 ⟨5, false, some ⟨["GZIP", "LZW"]⟩⟩ "LZW"
      ⟨["GZIP", "LZW"]⟩ [[1, 2, 3]] (by decide) (by decide) rfl (by decide)
      (by decide) (by decide) (by decide) (by decide) (by decide)).2.1,
   ((c8_set_compression_algorithm bufferedStreamExample (some "LZW")
      PollIo.released FlushIo.ok (by decide) (by decide) (by decide)
      (by decide)).2.2.2.2 ⟨5, false, some ⟨["GZIP", "LZW"]⟩⟩ "LZW"
      ⟨["GZIP", "LZW"]⟩ [[1, 2, 3]] (by decide) (by decide) rfl (by decide)
      (by decide) (by decide) (by decide) (by decide) (by decide)).2.2⟩

/-! ## Trace invariants of MessageOutputStream -/

/-- The caching-off invariant: caching is off and the cached payload list is
empty. -/
def cacheOff (s : MessageOutputStream) : Prop :=
  s.caching = false ∧ s.payloads = []

lemma cacheOff_flushPerform (s : MessageOutputStream) (io : FlushIo)
    (h : cacheOff s) : cacheOff ((s.flushPerform io).1) := by
  unfold MessageOutputStream.flushPerform MessageOutputStream.emitChunk
    MessageOutputStream.pushCache
  obtain ⟨h1, h2⟩ := h
  repeat' split
  all_goals simp_all [cacheOff]

lemma cacheOff_flush (s : MessageOutputStream) (p : PollIo) (io : FlushIo)
    (h : cacheOff s) : cacheOff ((s.flush p io).1) := by
  unfold MessageOutputStream.flush
  split
  · exact cacheOff_flushPerform s io h
  · cases p
    · exact cacheOff_flushPerform s io h
    · exact h
    · exact h

lemma cacheOff_write (s : MessageOutputStream) (d : Bytes) (off len : Int)
    (h : cacheOff s) : cacheOff ((s.write d off len).1) := by
  unfold MessageOutputStream.write
  obtain ⟨h1, h2⟩ := h
  repeat' split
  all_goals simp_all [cacheOff]

lemma cacheOff_close (s : MessageOutputStream) (p : PollIo) (fio : FlushIo)
    (dio : DestCloseIo) (h : cacheOff s) : cacheOff ((s.close p fio dio).1) := by
  unfold MessageOutputStream.close
  have hs1 : cacheOff ({ s with closed := true } : MessageOutputStream) := h
  rcases hf : MessageOutputStream.flush { s with closed := true } p fio with ⟨s2, o⟩
  have h2 : cacheOff s2 := by
    have := cacheOff_flush { s with closed := true } p fio hs1
    rwa [hf] at this
  split
  · exact h
  · split
    · exact h
    · split
      · exact h
      · split
        · exact h
        · dsimp only
          rw [hf]
          cases o with
          | result success =>
            cases success <;> cases dio <;> (repeat' split) <;>
              simp_all [cacheOff]
          | timeout => exact h2
          | error e => exact h2

lemma cacheOff_setCompressionAlgorithm (s : MessageOutputStream)
    (algo : Option String) (p : PollIo) (io : FlushIo) (h : cacheOff s) :
    cacheOff ((s.setCompressionAlgorithm algo p io).1) := by
  unfold MessageOutputStream.setCompressionAlgorithm
  rcases hf : MessageOutputStream.flush s p io with ⟨s1, o⟩
  have h1 : cacheOff s1 := by
    have := cacheOff_flush s p io h
    rwa [hf] at this
  repeat' split
  all_goals simp_all [cacheOff]

lemma cacheOff_step (s : MessageOutputStream) (op : Op) (h : cacheOff s) :
    cacheOff (s.step op) := by
  cases op with
  | write d o l => exact cacheOff_write s d o l h
  | flush p io => exact cacheOff_flush s p io h
  | close p fio dio => exact cacheOff_close s p fio dio h
  | setCompressionAlgorithm a p io => exact cacheOff_setCompressionAlgorithm s a p io h
  | stopCaching => exact ⟨rfl, rfl⟩
  | abort => exact h
  | closeDestination b => exact h

lemma cacheOff_run (s : MessageOutputStream) (ops : List Op) (h : cacheOff s) :
    cacheOff (s.run ops) := by
  induction ops generalizing s with
  | nil => exact h
  | cons op ops ih => exact ih _ (cacheOff_step s op h)

/-- C10: caching is on by default; `stopCaching()` immediately discards every
cached chunk, and from then on `getPayloads()` is empty forever — no chunk
emitted later is ever cached. -/
theorem c10_stop_caching_discards_and_disables
    (ctxCaps : Option MessageCapabilities) (h : Header) (hio : HeaderIo)
    (s : MessageOutputStream) (ops : List Op) :
    (MessageOutputStream.create ctxCaps h hio).caching = true ∧
    (s.stopCaching).payloads = [] ∧
    MessageOutputStream.getPayloads ((s.stopCaching).run ops) = [] := by
  refine ⟨?_, rfl, ?_⟩
  · cases hio <;>
      simp [MessageOutputStream.create, MessageOutputStream.createPending,
        MessageOutputStream.headerIoComplete]
  · exact (cacheOff_run s.stopCaching ops ⟨rfl, rfl⟩).2

/-- The sequence-number invariant: the emitted chunks carry, in order, the
sequence numbers 1, 2, 3, ..., and the next sequence number is one past the
number of emitted chunks. -/
def seqOk (s : MessageOutputStream) : Prop :=
  s.emitted.map (fun c => c.sequenceNumber) = List.range' 1 s.emitted.length ∧
  s.payloadSequenceNumber = s.emitted.length + 1

lemma seqOk_flushPerform (s : MessageOutputStream) (io : FlushIo)
    (h : seqOk s) : seqOk ((s.flushPerform io).1) := by
  obtain ⟨h1, h2⟩ := h
  unfold MessageOutputStream.flushPerform MessageOutputStream.emitChunk
    MessageOutputStream.pushCache PayloadChunk.create
  repeat' split
  all_goals simp_all [seqOk, List.range'_1_concat, Nat.add_comm]

lemma seqOk_flush (s : MessageOutputStream) (p : PollIo) (io : FlushIo)
    (h : seqOk s) : seqOk ((s.flush p io).1) := by
  unfold MessageOutputStream.flush
  split
  · exact seqOk_flushPerform s io h
  · cases p
    · exact seqOk_flushPerform s io h
    · exact h
    · exact h

lemma seqOk_write (s : MessageOutputStream) (d : Bytes) (off len : Int)
    (h : seqOk s) : seqOk ((s.write d off len).1) := by
  obtain ⟨h1, h2⟩ := h
  unfold MessageOutputStream.write
  repeat' split
  all_goals simp_all [seqOk]

lemma seqOk_close (s : MessageOutputStream) (p : PollIo) (fio : FlushIo)
    (dio : DestCloseIo) (h : seqOk s) : seqOk ((s.close p fio dio).1) := by
  unfold MessageOutputStream.close
  have hs1 : seqOk ({ s with closed := true } : MessageOutputStream) := h
  rcases hf : MessageOutputStream.flush { s with closed := true } p fio with ⟨s2, o⟩
  have h2 : seqOk s2 := by
    have := seqOk_flush { s with closed := true } p fio hs1
    rwa [hf] at this
  split
  · exact h
  · split
    · exact h
    · split
      · exact h
      · split
        · exact h
        · dsimp only
          rw [hf]
          cases o with
          | result success =>
            obtain ⟨h2a, h2b⟩ := h2
            cases success <;> cases dio <;> (repeat' split) <;>
              simp_all [seqOk]
          | timeout => exact h2
          | error e => exact h2

lemma seqOk_setCompressionAlgorithm (s : MessageOutputStream)
    (algo : Option String) (p : PollIo) (io : FlushIo) (h : seqOk s) :
    seqOk ((s.setCompressionAlgorithm algo p io).1) := by
  unfold MessageOutputStream.setCompressionAlgorithm
  rcases hf : MessageOutputStream.flush s p io with ⟨s1, o⟩
  have h1 : seqOk s1 := by
    have := seqOk_flush s p io h
    rwa [hf] at this
  obtain ⟨h1a, h1b⟩ := h1
  obtain ⟨ha, hb⟩ := h
  repeat' split
  all_goals simp_all [seqOk]

lemma seqOk_step (s : MessageOutputStream) (op : Op) (h : seqOk s) :
    seqOk (s.step op) := by
  cases op with
  | write d o l => exact seqOk_write s d o l h
  | flush p io => exact seqOk_flush s p io h
  | close p fio dio => exact seqOk_close s p fio dio h
  | setCompressionAlgorithm a p io => exact seqOk_setCompressionAlgorithm s a p io h
  | stopCaching => exact h
  | abort => exact h
  | closeDestination b => exact h

lemma seqOk_run (s : MessageOutputStream) (ops : List Op) (h : seqOk s) :
    seqOk (s.run ops) := by
  induction ops generalizing s with
  | nil => exact h
  | cons op ops ih => exact ih _ (seqOk_step s op h)

/-- C3: across any sequence of operations, the payload chunks a message
output stream emits carry, in emission order, exactly the sequence numbers
1, 2, 3, ... — strictly increasing by one, starting at one, with no gaps. -/
theorem c3_sequence_numbers_start_at_one_no_gaps
    (ctxCaps : Option MessageCapabilities) (h : Header) (hio : HeaderIo)
    (ops : List Op) :
    ((MessageOutputStream.create ctxCaps h hio).run ops).emitted.map
        (fun c => c.sequenceNumber) =
      List.range' 1
        ((MessageOutputStream.create ctxCaps h hio).run ops).emitted.length := by
  have hinit : seqOk (MessageOutputStream.create ctxCaps h hio) := by
    cases hio <;>
      simp [seqOk, MessageOutputStream.create, MessageOutputStream.createPending,
        MessageOutputStream.headerIoComplete]
  exact (seqOk_run _ ops hinit).1

lemma eomCount_append (l1 l2 : List PayloadChunk) :
    eomCount (l1 ++ l2) = eomCount l1 + eomCount l2 := by
  simp [eomCount]

lemma eomCount_eq_zero (l : List PayloadChunk) :
    eomCount l = 0 ↔ ∀ c ∈ l, c.endOfMessage = false := by
  simp [eomCount, List.length_eq_zero, List.filter_eq_nil_iff]

/-- The end-of-message invariant over arbitrary traces: a null buffer only
occurs on a closed stream, an emitted end-of-message chunk implies the buffer
is null, at most one end-of-message chunk is ever emitted, and every emitted
chunk except possibly the last is not an end-of-message chunk. -/
def eomOk (s : MessageOutputStream) : Prop :=
  (s.currentPayload = none → s.closed = true) ∧
  (s.currentPayload ≠ none → eomCount s.emitted = 0) ∧
  eomCount s.emitted ≤ 1 ∧
  ∀ c ∈ s.emitted.dropLast, c.endOfMessage = false

lemma eomOk_of_fields (s t : MessageOutputStream)
    (hcur : t.currentPayload = s.currentPayload) (hcl : t.closed = s.closed)
    (hem : t.emitted = s.emitted) (h : eomOk s) : eomOk t := by
  unfold eomOk at h ⊢
  rw [hcur, hcl, hem]
  exact h

lemma pushCache_currentPayload (s : MessageOutputStream) (c : PayloadChunk) :
    (s.pushCache c).currentPayload = s.currentPayload := by
  unfold MessageOutputStream.pushCache
  split <;> rfl

lemma pushCache_closed (s : MessageOutputStream) (c : PayloadChunk) :
    (s.pushCache c).closed = s.closed := by
  unfold MessageOutputStream.pushCache
  split <;> rfl

lemma pushCache_emitted (s : MessageOutputStream) (c : PayloadChunk) :
    (s.pushCache c).emitted = s.emitted := by
  unfold MessageOutputStream.pushCache
  split <;> rfl

lemma pushCache_seq (s : MessageOutputStream) (c : PayloadChunk) :
    (s.pushCache c).payloadSequenceNumber = s.payloadSequenceNumber := by
  unfold MessageOutputStream.pushCache
  split <;> rfl

lemma eomOk_emitChunk (s : MessageOutputStream) (mh : MessageHeader)
    (data : Bytes) (io : FlushIo) (segments : List Bytes)
    (hcur : s.currentPayload = some segments) (h : eomOk s) :
    eomOk ((s.emitChunk mh data io).1) := by
  obtain ⟨h1, h2, h3, h4⟩ := h
  have hz : eomCount s.emitted = 0 := h2 (by simp [hcur])
  have hall : ∀ c ∈ s.emitted, c.endOfMessage = false :=
    (eomCount_eq_zero s.emitted).mp hz
  unfold MessageOutputStream.emitChunk
  cases io with
  | ok =>
    refine ⟨?_, ?_, ?_, ?_⟩ <;>
      simp only [pushCache_currentPayload, pushCache_closed, pushCache_emitted,
        pushCache_seq]
    · intro hnone
      by_cases hcl : s.closed = true
      · exact hcl
      · simp [hcl] at hnone
    · intro hne
      by_cases hcl : s.closed = true
      · simp [hcl] at hne
      · simp only [Bool.not_eq_true] at hcl
        simp [eomCount_append, hz, eomCount, PayloadChunk.create, hcl]
        exact hall
    · have hz' := hz
      unfold eomCount at hz'
      by_cases hcl : s.closed = true
      · simp [eomCount_append, eomCount, PayloadChunk.create, hcl]
        exact hall
      · simp only [Bool.not_eq_true] at hcl
        simp [eomCount_append, eomCount, PayloadChunk.create, hcl]
        omega
    · intro c hc
      rw [List.dropLast_concat] at hc
      exact hall c hc
  | chunkError e => exact ⟨h1, h2, h3, h4⟩
  | abortDuringWrite =>
    exact eomOk_of_fields s _ (pushCache_currentPayload s _)
      (pushCache_closed s _) (pushCache_emitted s _) ⟨h1, h2, h3, h4⟩
  | writeShort =>
    exact eomOk_of_fields s _ (pushCache_currentPayload s _)
      (pushCache_closed s _) (pushCache_emitted s _) ⟨h1, h2, h3, h4⟩
  | writeTimeout =>
    exact eomOk_of_fields s _ (pushCache_currentPayload s _)
      (pushCache_closed s _) (pushCache_emitted s _) ⟨h1, h2, h3, h4⟩
  | writeError e =>
    exact eomOk_of_fields s _ (pushCache_currentPayload s _)
      (pushCache_closed s _) (pushCache_emitted s _) ⟨h1, h2, h3, h4⟩
  | abortDuringFlush =>
    exact eomOk_of_fields s _ (pushCache_currentPayload s _)
      (pushCache_closed s _) (pushCache_emitted s _) ⟨h1, h2, h3, h4⟩
  | flushFalse =>
    exact eomOk_of_fields s _ (pushCache_currentPayload s _)
      (pushCache_closed s _) (pushCache_emitted s _) ⟨h1, h2, h3, h4⟩
  | flushTimeout =>
    exact eomOk_of_fields s _ (pushCache_currentPayload s _)
      (pushCache_closed s _) (pushCache_emitted s _) ⟨h1, h2, h3, h4⟩
  | flushError e =>
    exact eomOk_of_fields s _ (pushCache_currentPayload s _)
      (pushCache_closed s _) (pushCache_emitted s _) ⟨h1, h2, h3, h4⟩

lemma eomOk_flushPerform (s : MessageOutputStream) (io : FlushIo)
    (h : eomOk s) : eomOk ((s.flushPerform io).1) := by
  unfold MessageOutputStream.flushPerform
  split
  · exact h
  split
  · exact h
  split
  · exact h
  split
  · exact h
  split
  · exact h
  split
  · exact h
  split
  · exact h
  exact eomOk_emitChunk s _ _ io _ (by assumption) h

lemma eomOk_flush (s : MessageOutputStream) (p : PollIo) (io : FlushIo)
    (h : eomOk s) : eomOk ((s.flush p io).1) := by
  unfold MessageOutputStream.flush
  split
  · exact eomOk_flushPerform s io h
  · cases p
    · exact eomOk_flushPerform s io h
    · exact h
    · exact h

lemma eomOk_write (s : MessageOutputStream) (d : Bytes) (off len : Int)
    (h : eomOk s) : eomOk ((s.write d off len).1) := by
  obtain ⟨h1, h2, h3, h4⟩ := h
  unfold MessageOutputStream.write
  repeat' split
  all_goals simp_all [eomOk]

lemma flushPerform_closed (s : MessageOutputStream) (io : FlushIo) :
    ((s.flushPerform io).1).closed = s.closed := by
  unfold MessageOutputStream.flushPerform MessageOutputStream.emitChunk
    MessageOutputStream.pushCache
  repeat' split
  all_goals simp_all

lemma flush_closed (s : MessageOutputStream) (p : PollIo) (io : FlushIo) :
    ((s.flush p io).1).closed = s.closed := by
  unfold MessageOutputStream.flush
  split
  · exact flushPerform_closed s io
  · cases p
    · exact flushPerform_closed s io
    · rfl
    · rfl

lemma eomOk_close (s : MessageOutputStream) (p : PollIo) (fio : FlushIo)
    (dio : DestCloseIo) (h : eomOk s) : eomOk ((s.close p fio dio).1) := by
  unfold MessageOutputStream.close
  obtain ⟨h1, h2, h3, h4⟩ := h
  have hs1 : eomOk ({ s with closed := true } : MessageOutputStream) :=
    ⟨fun _ => rfl, h2, h3, h4⟩
  rcases hf : MessageOutputStream.flush { s with closed := true } p fio with ⟨s2, o⟩
  have h2' : eomOk s2 := by
    have := eomOk_flush { s with closed := true } p fio hs1
    rwa [hf] at this
  have hcl2 : s2.closed = true := by
    have := flush_closed { s with closed := true } p fio
    rw [hf] at this
    exact this
  obtain ⟨g1, g2, g3, g4⟩ := h2'
  have hnone : eomOk ({ s2 with currentPayload := none } : MessageOutputStream) :=
    ⟨fun _ => hcl2, fun hne => absurd rfl hne, g3, g4⟩
  split
  · exact ⟨h1, h2, h3, h4⟩
  · split
    · exact ⟨h1, h2, h3, h4⟩
    · split
      · exact ⟨h1, h2, h3, h4⟩
      · split
        · exact ⟨h1, h2, h3, h4⟩
        · dsimp only
          rw [hf]
          cases o with
          | result success =>
            cases success <;> cases dio <;> dsimp only <;> (repeat' split) <;>
              first
                | exact ⟨g1, g2, g3, g4⟩
                | exact hnone
          | timeout => exact ⟨g1, g2, g3, g4⟩
          | error e => exact ⟨g1, g2, g3, g4⟩

lemma setCompressionAlgorithm_state (s : MessageOutputStream)
    (algo : Option String) (p : PollIo) (io : FlushIo) :
    (s.setCompressionAlgorithm algo p io).1 = s ∨
    (s.setCompressionAlgorithm algo p io).1 = (s.flush p io).1 ∨
    (s.setCompressionAlgorithm algo p io).1 =
      { (s.flush p io).1 with compressionAlgo := algo } := by
  unfold MessageOutputStream.setCompressionAlgorithm
  repeat' split
  all_goals simp_all

lemma eomOk_setCompressionAlgorithm (s : MessageOutputStream)
    (algo : Option String) (p : PollIo) (io : FlushIo) (h : eomOk s) :
    eomOk ((s.setCompressionAlgorithm algo p io).1) := by
  have hflush : eomOk ((s.flush p io).1) := eomOk_flush s p io h
  rcases setCompressionAlgorithm_state s algo p io with heq | heq | heq <;> rw [heq]
  · exact h
  · exact hflush
  · exact eomOk_of_fields ((s.flush p io).1) _ rfl rfl rfl hflush

lemma eomOk_step (s : MessageOutputStream) (op : Op) (h : eomOk s) :
    eomOk (s.step op) := by
  cases op with
  | write d o l => exact eomOk_write s d o l h
  | flush p io => exact eomOk_flush s p io h
  | close p fio dio => exact eomOk_close s p fio dio h
  | setCompressionAlgorithm a p io => exact eomOk_setCompressionAlgorithm s a p io h
  | stopCaching => exact h
  | abort => exact h
  | closeDestination b => exact h

lemma eomOk_run (s : MessageOutputStream) (ops : List Op) (h : eomOk s) :
    eomOk (s.run ops) := by
  induction ops generalizing s with
  | nil => exact h
  | cons op ops ih => exact ih _ (eomOk_step s op h)

/-- The chunk `flush()` builds from the buffered segments of a stream. -/
def bufferChunk (s : MessageOutputStream) (mh : MessageHeader)
    (segments : List Bytes) : PayloadChunk :=
  PayloadChunk.create s.payloadSequenceNumber mh.messageId s.closed
    s.compressionAlgo segments.flatten

lemma flushPerform_ok_spec (s : MessageOutputStream) (mh : MessageHeader)
    (hh : s.header = Header.message mh) (hhs : mh.handshake = false)
    (hab : s.aborted = false) (hto : s.timedout = false)
    (herr : s.errored = none) :
    (s.currentPayload = none →
      s.flushPerform FlushIo.ok = (s, JsOutcome.result true)) ∧
    (∀ segments, s.currentPayload = some segments → s.closed = false →
      segments = [] → s.flushPerform FlushIo.ok = (s, JsOutcome.result true)) ∧
    (∀ segments, s.currentPayload = some segments →
      (s.closed = true ∨ segments ≠ []) →
      s.flushPerform FlushIo.ok =
        ({ s with
            payloads :=
              if s.caching then s.payloads ++ [bufferChunk s mh segments]
              else s.payloads
            payloadSequenceNumber := s.payloadSequenceNumber + 1
            currentPayload := if s.closed then none else some []
            emitted := s.emitted ++ [bufferChunk s mh segments] },
          JsOutcome.result true)) := by
  refine ⟨?_, ?_, ?_⟩
  · intro hcur
    simp [MessageOutputStream.flushPerform, hab, hto, herr, hcur]
  · intro segments hcur hcl hseg
    subst hseg
    simp [MessageOutputStream.flushPerform, hab, hto, herr, hcur, hcl]
  · intro segments hcur hor
    have hcond : (!s.closed && (segments.length == 0)) = false := by
      rcases hor with hcl | hne
      · simp [hcl]
      · simp [List.length_eq_zero.not.mpr hne]
    by_cases hcache : s.caching <;>
      simp [MessageOutputStream.flushPerform, hab, hto, herr, hcur, hcond, hh,
        Header.getMessageHeader, hhs, MessageOutputStream.emitChunk,
        MessageOutputStream.pushCache, bufferChunk, hcache]

lemma write_state (s : MessageOutputStream) (d : Bytes) (off len : Int) :
    (s.write d off len).1 = s ∨
    ∃ segments, s.currentPayload = some segments ∧ s.closed = false ∧
      (s.write d off len).1 =
        { s with
            currentPayload := some (segments ++ [(d.drop off.toNat).take len.toNat]) } := by
  unfold MessageOutputStream.write
  repeat' split
  all_goals simp_all

/-- The normal-operation invariant of a data-bearing (non-handshake message
header) stream: construction succeeded, no failure flags, and the closed flag,
the buffer and the end-of-message count are linked: while open the buffer is
non-null and no end-of-message chunk has been emitted; once the buffer is null
the stream is closed and exactly one end-of-message chunk was emitted. -/
def liveOk (mh : MessageHeader) (s : MessageOutputStream) : Prop :=
  s.header = Header.message mh ∧ s.ready = true ∧ s.aborted = false ∧
  s.timedout = false ∧ s.errored = none ∧
  (s.closed = true → s.currentPayload = none) ∧
  (s.currentPayload = none → s.closed = true ∧ eomCount s.emitted = 1) ∧
  (s.currentPayload ≠ none → eomCount s.emitted = 0)

lemma liveOk_of_fields (mh : MessageHeader) (s t : MessageOutputStream)
    (hh : t.header = s.header) (hr : t.ready = s.ready)
    (hab : t.aborted = s.aborted) (hto : t.timedout = s.timedout)
    (herr : t.errored = s.errored) (hcl : t.closed = s.closed)
    (hcur : t.currentPayload = s.currentPayload) (hem : t.emitted = s.emitted)
    (h : liveOk mh s) : liveOk mh t := by
  unfold liveOk at h ⊢
  rw [hh, hr, hab, hto, herr, hcl, hcur, hem]
  exact h

lemma liveOk_write (mh : MessageHeader) (s : MessageOutputStream) (d : Bytes)
    (off len : Int) (h : liveOk mh s) : liveOk mh ((s.write d off len).1) := by
  rcases write_state s d off len with heq | ⟨segments, hcur, hcl, heq⟩ <;> rw [heq]
  · exact h
  · obtain ⟨h1, h2, h3, h4, h5, h6, h7, h8⟩ := h
    refine ⟨h1, h2, h3, h4, h5, ?_, ?_, ?_⟩
    · intro hx
      simp only [hcl] at hx
      exact absurd hx (by simp)
    · intro hx
      exact absurd hx (by simp)
    · intro _
      exact h8 (by simp [hcur])

lemma liveOk_flush (mh : MessageHeader) (hhs : mh.handshake = false)
    (s : MessageOutputStream) (p : PollIo) (h : liveOk mh s) :
    liveOk mh ((s.flush p FlushIo.ok).1) ∧
    (s.flush p FlushIo.ok).2 = JsOutcome.result true := by
  obtain ⟨h1, h2, h3, h4, h5, h6, h7, h8⟩ := h
  have hred : s.flush p FlushIo.ok = s.flushPerform FlushIo.ok := by
    unfold MessageOutputStream.flush
    simp [h2]
  rw [hred]
  obtain ⟨spec1, spec2, spec3⟩ := flushPerform_ok_spec s mh h1 hhs h3 h4 h5
  rcases hcur : s.currentPayload with _ | segments
  · rw [spec1 hcur]
    exact ⟨⟨h1, h2, h3, h4, h5, h6, h7, h8⟩, rfl⟩
  · by_cases hcl : s.closed = true
    · rw [h6 hcl] at hcur
      cases hcur
    · have hclf : s.closed = false := by simpa using hcl
      by_cases hseg : segments = []
      · rw [spec2 segments hcur hclf hseg]
        exact ⟨⟨h1, h2, h3, h4, h5, h6, h7, h8⟩, rfl⟩
      · rw [spec3 segments hcur (Or.inr hseg)]
        have hz : eomCount s.emitted = 0 := h8 (by simp [hcur])
        refine ⟨⟨h1, h2, h3, h4, h5, ?_, ?_, ?_⟩, rfl⟩
        · intro hx
          simp only [hclf] at hx
          exact absurd hx (by simp)
        · intro hx
          simp only [hclf] at hx
          exact absurd hx (by simp)
        · intro _
          simp [eomCount_append, hz, eomCount, bufferChunk, PayloadChunk.create,
            hclf]
          exact (eomCount_eq_zero s.emitted).mp hz

lemma liveOk_close (mh : MessageHeader) (hhs : mh.handshake = false)
    (s : MessageOutputStream) (p : PollIo) (h : liveOk mh s) :
    liveOk mh ((s.close p FlushIo.ok DestCloseIo.ok).1) ∧
    eomCount ((s.close p FlushIo.ok DestCloseIo.ok).1).emitted = 1 ∧
    (s.close p FlushIo.ok DestCloseIo.ok).2 = JsOutcome.result true ∧
    (s.closed = false → ∀ segments, s.currentPayload = some segments →
      ((s.close p FlushIo.ok DestCloseIo.ok).1).emitted =
        s.emitted ++ [PayloadChunk.create s.payloadSequenceNumber mh.messageId
          true s.compressionAlgo segments.flatten]) := by
  obtain ⟨h1, h2, h3, h4, h5, h6, h7, h8⟩ := h
  by_cases hcl : s.closed = true
  · have hcur := h6 hcl
    have hcount := (h7 hcur).2
    have heq : s.close p FlushIo.ok DestCloseIo.ok = (s, JsOutcome.result true) := by
      simp [MessageOutputStream.close, h3, h4, h5, hcl]
    rw [heq]
    refine ⟨⟨h1, h2, h3, h4, h5, h6, h7, h8⟩, hcount, rfl, ?_⟩
    intro hx
    simp [hx] at hcl
  · have hclf : s.closed = false := by simpa using hcl
    rcases hcur : s.currentPayload with _ | segments
    · exact absurd ((h7 hcur).1) hcl
    · have hspec := (flushPerform_ok_spec ({ s with closed := true })
        mh h1 hhs h3 h4 h5).2.2 segments hcur (Or.inl rfl)
      have hflush :
          MessageOutputStream.flush { s with closed := true } p FlushIo.ok =
            MessageOutputStream.flushPerform { s with closed := true }
              FlushIo.ok := by
        unfold MessageOutputStream.flush
        simp [h2]
      have hz : eomCount s.emitted = 0 := h8 (by simp [hcur])
      have hclose :
          s.close p FlushIo.ok DestCloseIo.ok =
            ({ s with
                closed := true
                payloads :=
                  if s.caching then
                    s.payloads ++ [bufferChunk { s with closed := true } mh segments]
                  else s.payloads
                payloadSequenceNumber := s.payloadSequenceNumber + 1
                currentPayload := none
                emitted :=
                  s.emitted ++ [bufferChunk { s with closed := true } mh segments] },
              JsOutcome.result true) := by
        have hcomb := hflush.trans hspec
        unfold MessageOutputStream.close
        dsimp only
        rw [hcomb]
        by_cases hcache : s.caching <;>
          simp [h3, h4, h5, hclf, hcache]
      rw [hclose]
      refine ⟨⟨h1, h2, h3, h4, h5, fun _ => rfl, fun _ => ⟨rfl, ?_⟩, ?_⟩, ?_, rfl, ?_⟩
      · simp [eomCount_append, hz, eomCount, bufferChunk, PayloadChunk.create]
        exact (eomCount_eq_zero s.emitted).mp hz
      · intro hx
        exact absurd rfl hx
      · simp [eomCount_append, hz, eomCount, bufferChunk, PayloadChunk.create]
        exact (eomCount_eq_zero s.emitted).mp hz
      · intro _ segments2 hcur2
        have hseg2 : segments = segments2 := Option.some.inj hcur2
        subst hseg2
        rfl

lemma liveOk_setCompressionAlgorithm (mh : MessageHeader)
    (hhs : mh.handshake = false) (s : MessageOutputStream)
    (algo : Option String) (p : PollIo) (h : liveOk mh s) :
    liveOk mh ((s.setCompressionAlgorithm algo p FlushIo.ok).1) := by
  have hflush := (liveOk_flush mh hhs s p h).1
  rcases setCompressionAlgorithm_state s algo p FlushIo.ok with heq | heq | heq <;>
    rw [heq]
  · exact h
  · exact hflush
  · exact liveOk_of_fields mh _ _ rfl rfl rfl rfl rfl rfl rfl rfl hflush

lemma liveOk_step (mh : MessageHeader) (hhs : mh.handshake = false)
    (s : MessageOutputStream) (op : Op) (hok : op.ok = true)
    (h : liveOk mh s) : liveOk mh (s.step op) := by
  cases op with
  | write d o l => exact liveOk_write mh s d o l h
  | flush p io =>
    have hio : io = FlushIo.ok := by
      simpa [Op.ok] using hok
    subst hio
    exact (liveOk_flush mh hhs s p h).1
  | close p fio dio =>
    obtain ⟨hfio, hdio⟩ : fio = FlushIo.ok ∧ dio = DestCloseIo.ok := by
      simpa [Op.ok] using hok
    subst hfio
    subst hdio
    exact (liveOk_close mh hhs s p h).1
  | setCompressionAlgorithm a p io =>
    have hio : io = FlushIo.ok := by
      simpa [Op.ok] using hok
    subst hio
    exact liveOk_setCompressionAlgorithm mh hhs s a p h
  | stopCaching => exact liveOk_of_fields mh s _ rfl rfl rfl rfl rfl rfl rfl rfl h
  | abort => exact absurd hok (by simp [Op.ok])
  | closeDestination b =>
    exact liveOk_of_fields mh s _ rfl rfl rfl rfl rfl rfl rfl rfl h

lemma liveOk_run (mh : MessageHeader) (hhs : mh.handshake = false)
    (s : MessageOutputStream) (ops : List Op) (h : liveOk mh s) :
    ops.all Op.ok = true → liveOk mh (s.run ops) := by
  induction ops generalizing s with
  | nil => exact fun _ => h
  | cons op ops ih =>
    intro hops
    simp only [List.all_cons, Bool.and_eq_true] at hops
    exact ih (s.step op) (liveOk_step mh hhs s op hops.1 h) hops.2

lemma run_append (s : MessageOutputStream) (l1 l2 : List Op) :
    s.run (l1 ++ l2) = (s.run l1).run l2 := by
  induction l1 generalizing s with
  | nil => rfl
  | cons op ops ih => exact ih (s.step op)

/-- C4: over any trace of a data-bearing stream at most one emitted chunk has
the end-of-message flag and every emitted chunk except possibly the last does
not carry it (so nothing is emitted after the end-of-message chunk); over a
trace of successful, non-aborted operations ending in a `close()`, exactly one
end-of-message chunk is emitted; and closing a freshly created stream that was
never written to succeeds and emits exactly one end-of-message chunk with
empty data. -/
theorem c4_exactly_one_end_of_message_chunk
    (ctxCaps : Option MessageCapabilities) (mh : MessageHeader)
    (hnh : mh.handshake = false) (ops : List Op) :
    (eomCount (((MessageOutputStream.create ctxCaps (Header.message mh)
        HeaderIo.ok).run ops).emitted) ≤ 1 ∧
      ∀ c ∈ ((((MessageOutputStream.create ctxCaps (Header.message mh)
        HeaderIo.ok).run ops).emitted).dropLast), c.endOfMessage = false) ∧
    (ops.all Op.ok = true →
      eomCount (((MessageOutputStream.create ctxCaps (Header.message mh)
        HeaderIo.ok).run
          (ops ++ [Op.close PollIo.released FlushIo.ok DestCloseIo.ok])).emitted) = 1) ∧
    ((MessageOutputStream.create ctxCaps (Header.message mh) HeaderIo.ok).close
        PollIo.released FlushIo.ok DestCloseIo.ok).2 = JsOutcome.result true ∧
    ((MessageOutputStream.create ctxCaps (Header.message mh) HeaderIo.ok).close
        PollIo.released FlushIo.ok DestCloseIo.ok).1.emitted =
      [PayloadChunk.create 1 mh.messageId true
        (MessageOutputStream.create ctxCaps (Header.message mh)
          HeaderIo.ok).compressionAlgo []] := by
  have hlive : liveOk mh
      (MessageOutputStream.create ctxCaps (Header.message mh) HeaderIo.ok) :=
    ⟨rfl, rfl, rfl, rfl, rfl, fun hx => Bool.noConfusion hx,
      fun hx => Option.noConfusion hx, fun _ => rfl⟩
  have heom : eomOk
      (MessageOutputStream.create ctxCaps (Header.message mh) HeaderIo.ok) :=
    ⟨fun hx => Option.noConfusion hx, fun _ => rfl, Nat.zero_le 1,
      fun c hc => absurd hc (List.not_mem_nil c)⟩
  refine ⟨⟨(eomOk_run _ ops heom).2.2.1, (eomOk_run _ ops heom).2.2.2⟩, ?_,
    (liveOk_close mh hnh _ PollIo.released hlive).2.2.1,
    (liveOk_close mh hnh _ PollIo.released hlive).2.2.2 rfl [] rfl⟩
  intro hops
  rw [run_append]
  exact (liveOk_close mh hnh _ PollIo.released
    (liveOk_run mh hnh _ ops hlive hops)).2.1

/-- C4 (witness): the end-of-message claims evaluated on a fresh data-bearing
stream: closing it after an empty trace emits exactly one chunk, the empty
end-of-message chunk. -/
theorem c4_exactly_one_end_of_message_chunk_witness :
    eomCount (((MessageOutputStream.create none (Header.message ⟨9, false, none⟩)
        HeaderIo.ok).run
      ([] ++ [Op.close PollIo.released FlushIo.ok DestCloseIo.ok])).emitted) = 1 ∧
    ((MessageOutputStream.create none (Header.message ⟨9, false, none⟩)
        HeaderIo.ok).close PollIo.released FlushIo.ok DestCloseIo.ok).1.emitted =
      [PayloadChunk.create 1 9 true none []] :=
  ⟨(c4_exactly_one_end_of_message_chunk none ⟨9, false, none⟩ rfl []).2.1 rfl,
   (c4_exactly_one_end_of_message_chunk none ⟨9, false, none⟩ rfl []).2.2.2⟩
